import Mathlib

/-!
Verification of the test-session orchestration and evidence pipeline of a
Playwright/Behave acceptance-test harness.  The Python sources are embedded
shallowly: dictionaries become association lists over a small value type,
`datetime.now()` becomes an explicit timestamp argument, the logger is a
no-op, and the placeholder remote operations that the source wraps in
`try/except` are modelled by an explicit failure oracle (an `Option String`
holding the raised message, `none` meaning success).  Python `try` blocks
are embedded by propagating a raised-flag through the straight-line body;
an `except` clause swallows the flag.
-/

/-- Python values stored in the dictionaries the harness passes around. -/
inductive Val where
  | str (s : String)
  | num (q : ℚ)
  | noneV
  deriving DecidableEq, Repr

/-- An embedded Python dict: an association list from string keys to values. -/
abbrev PyDict := List (String × Val)

/-- Embeds `d.get(k)` on a dict: the first binding of `k`, if any. -/
def pyGet (d : PyDict) (k : String) : Option Val :=
  (d.find? (fun p => p.1 == k)).map Prod.snd

/-- One record of `MCPClient.test_results`: the dict built by
`report_test_result` (keys `test_name`, `status`, `timestamp`, `details`,
and optionally `screenshot`). -/
structure TestResultRec where
  test_name : String
  status : String
  timestamp : String
  details : PyDict
  screenshot : Option String
  deriving DecidableEq, Repr

/-- State of `MCPClient` (src/features/support/mcp_client.py): the
`client` and `transport` handles are tracked only by presence, `connected`
is the degraded-mode flag, `test_results` the locally accumulated results. -/
structure MCPState where
  client : Bool
  transport : Bool
  connected : Bool
  test_results : List TestResultRec
  deriving DecidableEq, Repr

/-- Embeds `MCPClient.__init__`: no handles, not connected, empty result list. -/
def MCPState.init : MCPState :=
  { client := false, transport := false, connected := false, test_results := [] }

/-- Embeds `MCPClient.connect`: the try body only logs and sets `connected = True`
(the actual MCP connection is a placeholder), so the except branch that
would set `connected = False` is unreachable; `client` is never assigned. -/
def MCPState.connect (s : MCPState) : MCPState :=
  { s with connected := true }

/-- Embeds `MCPClient.disconnect`: only acts when `self.client` is truthy; the try
body is plain attribute assignment and cannot raise. -/
def MCPState.disconnect (s : MCPState) : MCPState :=
  if s.client then
    { s with client := false, transport := false, connected := false }
  else s

/-- Embeds `MCPClient.is_connected`. -/
def MCPState.is_connected (s : MCPState) : Bool :=
  s.connected

/-- Embeds `MCPClient.start_test_orchestration`. `err` is the failure oracle for
the placeholder orchestration call inside the try block (`none` = no
exception raised); `ts` stands for `datetime.now().isoformat()`.  Returns
the outcome dict together with a flag recording whether the try body — the
site of the remote orchestration operation — was entered at all (the
degraded branch returns before it). -/
def MCPState.start_test_orchestration (s : MCPState) (test_name ts : String)
    (err : Option String) : PyDict × Bool :=
  if !s.connected then
    ([("status", .str "skipped"), ("reason", .str "MCP not connected")], false)
  else
    match err with
    | none => ([("status", .str "started"), ("test_name", .str test_name),
                ("timestamp", .str ts)], true)
    | some e => ([("status", .str "error"), ("error", .str e)], true)

/-- Embeds `MCPClient.stop_test_orchestration`, same conventions. -/
def MCPState.stop_test_orchestration (s : MCPState) (test_name ts : String)
    (err : Option String) : PyDict × Bool :=
  if !s.connected then
    ([("status", .str "skipped")], false)
  else
    match err with
    | none => ([("status", .str "stopped"), ("test_name", .str test_name),
                ("timestamp", .str ts)], true)
    | some e => ([("status", .str "error"), ("error", .str e)], true)

/-- Embeds `MCPClient.fetch_dynamic_data`. -/
def MCPState.fetch_dynamic_data (s : MCPState) (data_type ts : String)
    (err : Option String) : PyDict :=
  if !s.connected then
    if data_type == "search_keyword" then
      [("keyword", .str "AI"), ("source", .str "default")]
    else []
  else
    match err with
    | none =>
      if data_type == "search_keyword" then
        [("keyword", .str "AI"), ("source", .str "mcp"), ("timestamp", .str ts)]
      else if data_type == "validation_criteria" then
        [("min_results", .num 5), ("title_contains", .str "AI"),
         ("source", .str "mcp")]
      else []
    | some _ => []

/-- Embeds `MCPClient.report_test_result`: builds the result dict (`details or {}`
stores `{}` when the argument is `None`, and is value-preserving on any
dict), appends it to `test_results` unconditionally, then branches on
connectivity; the remote delivery attempt (placeholder) may fail via the
oracle `err` and its exception is caught in the function. Returns the new
state, the outcome dict, and a flag telling whether an exception escapes
to the caller (always `false`: the remote attempt is inside try/except and
the rest of the body is plain data construction). -/
def MCPState.report_test_result (s : MCPState) (test_name status : String)
    (details : Option PyDict) (screenshot_path : Option String)
    (ts : String) (err : Option String) : MCPState × PyDict × Bool :=
  let result : TestResultRec :=
    { test_name := test_name, status := status, timestamp := ts,
      details := details.getD [], screenshot := screenshot_path }
  let s1 := { s with test_results := s.test_results ++ [result] }
  if !s.connected then
    (s1, [("status", .str "logged_locally")], false)
  else
    match err with
    | none => (s1, [("status", .str "reported")], false)
    | some e => (s1, [("status", .str "error"), ("error", .str e)], false)

/-- Embeds `MCPClient.get_test_results`. -/
def MCPState.get_test_results (s : MCPState) : List TestResultRec :=
  s.test_results

/-! Embedding of ReportGenerator (src/utils/report_generator.py). -/

/-- Summary dict produced by `ReportGenerator._calculate_summary`. -/
structure RunSummary where
  total : Nat
  passed : Nat
  failed : Nat
  skipped : Nat
  pass_rate : ℚ
  deriving DecidableEq, Repr

/-- Python `round` to the nearest integer, ties to even (banker's
rounding), on the exact rational value. -/
def pyRoundInt (q : ℚ) : ℤ :=
  if q - (⌊q⌋ : ℚ) < 1/2 then ⌊q⌋
  else if 1/2 < q - (⌊q⌋ : ℚ) then ⌊q⌋ + 1
  else if Even ⌊q⌋ then ⌊q⌋ else ⌊q⌋ + 1

/-- Python `round(x, 2)` on the exact rational value. -/
def pyRound2 (q : ℚ) : ℚ :=
  (pyRoundInt (q * 100) : ℚ) / 100

/-- Embeds `ReportGenerator._calculate_summary`: `total` is the length,
`passed`/`failed`/`skipped` count the results whose `"status"` entry equals
the respective string, and `pass_rate = round(passed/total*100 if total>0
else 0, 2)`. -/
def calculate_summary (test_results : List PyDict) : RunSummary :=
  let total := test_results.length
  let passed := test_results.countP (fun r => pyGet r "status" == some (.str "passed"))
  let failed := test_results.countP (fun r => pyGet r "status" == some (.str "failed"))
  let skipped := test_results.countP (fun r => pyGet r "status" == some (.str "skipped"))
  { total := total, passed := passed, failed := failed, skipped := skipped,
    pass_rate := pyRound2 (if total > 0 then (passed : ℚ) / (total : ℚ) * 100 else 0) }

/-! Embedding of CustomWorld.cleanup (src/features/support/world.py). -/

/-- Which handles of `CustomWorld` are live (non-None / truthy) when
`cleanup` runs: `page`, `browser_context`, `browser`, `playwright`,
`mcp_client`. -/
structure WorldHandles where
  hasPage : Bool
  hasContext : Bool
  hasBrowser : Bool
  hasPlaywright : Bool
  hasMcp : Bool
  deriving DecidableEq, Fintype

/-- Failure oracle for the five teardown operations of `cleanup`: `true`
means the awaited call raises. -/
structure CleanupFailures where
  pageClose : Bool
  contextClose : Bool
  browserClose : Bool
  playwrightStop : Bool
  mcpDisconnect : Bool
  deriving DecidableEq, Fintype

/-- The five teardown steps of `CustomWorld.cleanup`. -/
inductive TeardownStep where
  | closePage
  | closeContext
  | closeBrowser
  | stopDriver
  | disconnectClient
  deriving DecidableEq, Fintype, Repr

/-- Run a Python try-block body of guarded awaited calls: each entry is
(handle present, call raises, step label).  Returns the steps actually
attempted and whether the block raised (the first raising call aborts the
rest of the block). -/
def tryBody : List (Bool × Bool × TeardownStep) → List TeardownStep × Bool
  | [] => ([], false)
  | (present, fails, s) :: rest =>
    if present then
      if fails then ([s], true)
      else
        let r := tryBody rest
        (s :: r.1, r.2)
    else tryBody rest

/-- Embeds `CustomWorld.cleanup`: the four browser-side teardown steps run inside
one try/except (the except only logs), then the MCP disconnect runs inside
a second try/except.  Returns the attempted steps in order and whether an
exception escapes to the caller (`false`: both blocks catch `Exception`). -/
def cleanup (w : WorldHandles) (f : CleanupFailures) : List TeardownStep × Bool :=
  let b1 := tryBody [(w.hasPage, f.pageClose, .closePage),
                     (w.hasContext, f.contextClose, .closeContext),
                     (w.hasBrowser, f.browserClose, .closeBrowser),
                     (w.hasPlaywright, f.playwrightStop, .stopDriver)]
  let b2 := tryBody [(w.hasMcp, f.mcpDisconnect, .disconnectClient)]
  (b1.1 ++ b2.1, false)

/-- Whether the handle guarding a given teardown step is live. -/
def stepPresent (w : WorldHandles) : TeardownStep → Bool
  | .closePage => w.hasPage
  | .closeContext => w.hasContext
  | .closeBrowser => w.hasBrowser
  | .stopDriver => w.hasPlaywright
  | .disconnectClient => w.hasMcp

/-! Embedding of the Behave hooks (src/features/support/hooks.py). -/

/-- The scenario attributes `after_scenario_hook` reads.  `exceptionAttr`
is `str(scenario.exception)` when the attribute exists (`none` = absent);
`durationAttr` likewise for `scenario.duration`. -/
structure Scenario where
  name : String
  status : String
  exceptionAttr : Option String
  durationAttr : Option ℚ
  deriving DecidableEq, Repr

/-- The context/world state the scenario-end hook manipulates: whether
`context.world.page` is truthy, the `mcp_client` (None or its state), and
whether `context.scenario_screenshots` exists. -/
structure HookWorld where
  hasPage : Bool
  mcp : Option MCPState
  hasScenarioShots : Bool
  deriving DecidableEq, Repr

/-- Environment/oracle for one run of `after_scenario_hook`:
`screenshotFails` makes `page.screenshot` raise, `reportErr` and `stopErr`
feed the MCP client's remote-failure oracles, `ts` is the current
timestamp. -/
structure ScnEnv where
  screenshotFails : Bool
  reportErr : Option String
  stopErr : Option String
  ts : String
  deriving DecidableEq, Repr

/-- Observable calls made by `after_scenario_hook`, in program order. -/
inductive ScnEvent where
  | screenshotAttempt
  | reportCall
  | stopCall
  | cleanupCall
  | mergeEvidence
  deriving DecidableEq, Repr

/-- The failure-screenshot path built by `after_scenario_hook`. -/
def failureShotPath (sc : Scenario) : String :=
  "reports/screenshot_" ++ sc.name.replace " " "_" ++ ".png"

/-- The result-reporting phase of `after_scenario_hook` (lines 127-156):
on failure with a live page, try to capture a screenshot and — only if the
capture did not raise and an MCP client exists — report `failed` with the
error message; on pass with an MCP client, report `passed` with the
duration.  Returns the (possibly updated) MCP client and the calls made. -/
def scnReportPhase (w : HookWorld) (sc : Scenario) (e : ScnEnv) :
    Option MCPState × List ScnEvent :=
  if sc.status == "failed" && w.hasPage then
    if e.screenshotFails then (w.mcp, [.screenshotAttempt])
    else
      match w.mcp with
      | some m =>
        let pr := m.report_test_result sc.name "failed"
          (some [("error", .str (sc.exceptionAttr.getD "Unknown error"))])
          (some (failureShotPath sc)) e.ts e.reportErr
        (some pr.1, [.screenshotAttempt, .reportCall])
      | none => (w.mcp, [.screenshotAttempt])
  else if sc.status == "passed" && w.mcp.isSome then
    match w.mcp with
    | some m =>
      let pr := m.report_test_result sc.name "passed"
        (some [("duration", match sc.durationAttr with
                            | some d => Val.num d
                            | none => Val.noneV)])
        none e.ts e.reportErr
      (some pr.1, [.reportCall])
    | none => (w.mcp, [])
  else (w.mcp, [])

/-- Embeds `after_scenario_hook`: the reporting phase, then
`stop_test_orchestration` if an MCP client exists, then
`context.world.cleanup()`, then the scenario-screenshot merge if the
attribute exists.  Returns the new world state and the ordered call
trace. -/
def after_scenario_hook (w : HookWorld) (sc : Scenario) (e : ScnEnv) :
    HookWorld × List ScnEvent :=
  let rp := scnReportPhase w sc e
  let ev2 : List ScnEvent := if w.mcp.isSome then [.stopCall] else []
  let ev3 : List ScnEvent := if w.hasScenarioShots then [.mergeEvidence] else []
  ({ w with mcp := rp.1 }, rp.2 ++ ev2 ++ [.cleanupCall] ++ ev3)

/-- The step attributes `after_step_hook` reads; `scenarioName` and
`statusAttr` are `none` when the corresponding attribute is absent. -/
structure StepCtx where
  name : String
  keyword : String
  scenarioName : Option String
  statusAttr : Option String
  deriving DecidableEq, Repr

/-- Whether `context.world` exists/is truthy and whether its `page` is
truthy, for the step-end hook's guard. -/
structure StepWorld where
  hasWorld : Bool
  hasPage : Bool
  deriving DecidableEq, Fintype

/-- Oracle for one run of `after_step_hook`: whether `os.makedirs` raises,
whether `page.screenshot` raises, and the formatted timestamp. -/
structure StepEnv where
  makedirsFails : Bool
  screenshotFails : Bool
  ts : String
  deriving DecidableEq, Repr

/-- A `ScreenshotRecord`: the `screenshot_info` dict built by
`after_step_hook`. -/
structure ScreenshotInfo where
  step : String
  step_type : String
  scenario : String
  path : String
  timestamp : String
  status : String
  deriving DecidableEq, Repr

/-- Embeds `after_step_hook`: when the world and page are live, compute the
sanitized names, make the directory, take the screenshot and append one
record to the evidence lists — all inside one try/except, so a raising
`makedirs` or `screenshot` yields no record.  Returns the records appended
(to both `context.scenario_screenshots` and `context.screenshots`) and
whether an exception escapes to the caller (always `false`). -/
def after_step_hook (w : StepWorld) (st : StepCtx) (e : StepEnv) :
    List ScreenshotInfo × Bool :=
  if w.hasWorld && w.hasPage then
    let step_name := (((st.name.replace " " "_").replace "\"" "").replace "/" "_").take 50
    let scenario_name := match st.scenarioName with
      | some s => (s.replace " " "_").take 30
      | none => "unknown"
    if e.makedirsFails then ([], false)
    else if e.screenshotFails then ([], false)
    else
      let filename := "screenshot_" ++ scenario_name ++ "_" ++ step_name
                        ++ "_" ++ e.ts ++ ".png"
      ([{ step := st.name, step_type := st.keyword, scenario := scenario_name,
          path := "reports/screenshots/" ++ filename, timestamp := e.ts,
          status := st.statusAttr.getD "unknown" }], false)
  else ([], false)

/-! Theorems about the embedded code. -/

/-- C5: every call of `report_test_result` — connected or not, remote
delivery failing or not — appends exactly one record carrying the given
name, status, details (with `details or {}` storing `{}` for `None`) and
screenshot reference to the end of the local result sequence, leaves all
earlier entries unchanged, and lets no remote-delivery failure escape to
the caller. -/
theorem report_test_result_appends_locally (s : MCPState)
    (name status : String) (details : Option PyDict) (shot : Option String)
    (ts : String) (err : Option String) :
    (s.report_test_result name status details shot ts err).1.get_test_results
      = s.get_test_results
        ++ [{ test_name := name, status := status, timestamp := ts,
              details := details.getD [], screenshot := shot }]
    ∧ (s.report_test_result name status details shot ts err).2.2 = false := by
  unfold MCPState.report_test_result MCPState.get_test_results
  constructor
  · split
    · rfl
    · cases err <;> rfl
  · split
    · rfl
    · cases err <;> rfl

/-- C6: in degraded mode (`connected = false`), `fetch_dynamic_data` on
`"search_keyword"` returns the fixed local default whose `keyword` field is
the non-empty string `"AI"`. -/
theorem fetch_dynamic_data_degraded_default (s : MCPState)
    (ts : String) (err : Option String) (h : s.connected = false) :
    pyGet (s.fetch_dynamic_data "search_keyword" ts err) "keyword"
      = some (Val.str "AI")
    ∧ ("AI" : String) ≠ "" := by
  unfold MCPState.fetch_dynamic_data
  rw [h]
  exact ⟨rfl, by decide⟩

/-- Witness for C6 at the freshly initialized (disconnected) client. -/
theorem fetch_dynamic_data_degraded_default_witness :
    pyGet (MCPState.init.fetch_dynamic_data "search_keyword" "t" none) "keyword"
      = some (Val.str "AI")
    ∧ ("AI" : String) ≠ "" :=
  fetch_dynamic_data_degraded_default MCPState.init "t" none rfl

/-- C9: in degraded mode both `start_test_orchestration` and
`stop_test_orchestration` return a dict whose `status` is `"skipped"` and
never enter the try body where the remote orchestration operation would be
performed. -/
theorem orchestration_degraded_skipped (s : MCPState)
    (name ts : String) (errStart errStop : Option String)
    (h : s.connected = false) :
    pyGet (s.start_test_orchestration name ts errStart).1 "status"
      = some (Val.str "skipped")
    ∧ (s.start_test_orchestration name ts errStart).2 = false
    ∧ pyGet (s.stop_test_orchestration name ts errStop).1 "status"
        = some (Val.str "skipped")
    ∧ (s.stop_test_orchestration name ts errStop).2 = false := by
  unfold MCPState.start_test_orchestration MCPState.stop_test_orchestration
  rw [h]
  exact ⟨rfl, rfl, rfl, rfl⟩

/-- Witness for C9 at the freshly initialized (disconnected) client. -/
theorem orchestration_degraded_skipped_witness :
    pyGet (MCPState.init.start_test_orchestration "scn" "t" none).1 "status"
      = some (Val.str "skipped")
    ∧ (MCPState.init.start_test_orchestration "scn" "t" none).2 = false
    ∧ pyGet (MCPState.init.stop_test_orchestration "scn" "t" none).1 "status"
        = some (Val.str "skipped")
    ∧ (MCPState.init.stop_test_orchestration "scn" "t" none).2 = false :=
  orchestration_degraded_skipped MCPState.init "scn" "t" none none rfl

/-- C10: when the underlying `client` handle is absent — which `connect`
never changes, so it holds in every reachable state — `disconnect` is a
complete no-op, and in particular `is_connected` still reports `true`
after `connect` followed by `disconnect`. -/
theorem disconnect_noop_without_client (s : MCPState)
    (h : s.client = false) :
    s.disconnect = s
    ∧ s.connect.client = s.client
    ∧ (s.connect.disconnect).is_connected = true := by
  refine ⟨?_, rfl, ?_⟩
  · unfold MCPState.disconnect
    rw [h]
    rfl
  · unfold MCPState.disconnect MCPState.connect MCPState.is_connected
    simp [h]

/-- Witness for C10 at the freshly initialized client. -/
theorem disconnect_noop_without_client_witness :
    MCPState.init.disconnect = MCPState.init
    ∧ MCPState.init.connect.client = MCPState.init.client
    ∧ (MCPState.init.connect.disconnect).is_connected = true :=
  disconnect_noop_without_client MCPState.init rfl

/-- Helper: if every element satisfies exactly one of the three status
predicates used by `calculate_summary`, the three counts partition the
length. -/
theorem countP_status_partition (l : List PyDict)
    (h : ∀ r ∈ l, pyGet r "status" = some (Val.str "passed")
        ∨ pyGet r "status" = some (Val.str "failed")
        ∨ pyGet r "status" = some (Val.str "skipped")) :
    l.countP (fun r => pyGet r "status" == some (.str "passed"))
      + l.countP (fun r => pyGet r "status" == some (.str "failed"))
      + l.countP (fun r => pyGet r "status" == some (.str "skipped"))
      = l.length := by
  induction l with
  | nil => simp
  | cons a t ih =>
    have ha := h a (List.mem_cons_self a t)
    have ht := ih (fun r hr => h r (List.mem_cons_of_mem a hr))
    simp only [List.countP_cons, List.length_cons]
    rcases ha with h1 | h1 | h1 <;> simp [h1] <;> omega

/-- C4: for every list of test results (each carrying one of the three
legal statuses of the data model), the summary's `total` equals the list
length and `passed + failed + skipped = total`. -/
theorem summary_total_and_partition (results : List PyDict)
    (h : ∀ r ∈ results, pyGet r "status" = some (Val.str "passed")
        ∨ pyGet r "status" = some (Val.str "failed")
        ∨ pyGet r "status" = some (Val.str "skipped")) :
    (calculate_summary results).total = results.length
    ∧ (calculate_summary results).passed + (calculate_summary results).failed
        + (calculate_summary results).skipped
      = (calculate_summary results).total := by
  refine ⟨rfl, ?_⟩
  simpa [calculate_summary] using countP_status_partition results h

/-- Witness for C4 on a concrete three-element result list. -/
theorem summary_total_and_partition_witness :
    (calculate_summary [[("status", Val.str "passed")],
                        [("status", Val.str "failed")],
                        [("status", Val.str "skipped")]]).total
      = [[("status", Val.str "passed")],
         [("status", Val.str "failed")],
         [("status", Val.str "skipped")]].length
    ∧ (calculate_summary [[("status", Val.str "passed")],
                          [("status", Val.str "failed")],
                          [("status", Val.str "skipped")]]).passed
        + (calculate_summary [[("status", Val.str "passed")],
                              [("status", Val.str "failed")],
                              [("status", Val.str "skipped")]]).failed
        + (calculate_summary [[("status", Val.str "passed")],
                              [("status", Val.str "failed")],
                              [("status", Val.str "skipped")]]).skipped
      = (calculate_summary [[("status", Val.str "passed")],
                            [("status", Val.str "failed")],
                            [("status", Val.str "skipped")]]).total :=
  summary_total_and_partition _ (by decide)

/-- Helper: Python rounding never goes below the floor. -/
theorem floor_le_pyRoundInt (q : ℚ) : ⌊q⌋ ≤ pyRoundInt q := by
  unfold pyRoundInt
  split_ifs <;> omega

/-- Helper: Python rounding never exceeds the ceiling. -/
theorem pyRoundInt_le_ceil (q : ℚ) : pyRoundInt q ≤ ⌈q⌉ := by
  have hfc : ⌊q⌋ ≤ ⌈q⌉ := Int.floor_le_ceil q
  have hstep : (1:ℚ)/2 ≤ q - (⌊q⌋ : ℚ) → ⌊q⌋ + 1 ≤ ⌈q⌉ := by
    intro hhalf
    have h1 : (⌊q⌋ : ℚ) < q := by linarith
    have h2 : ((⌊q⌋ : ℤ) : ℚ) < ((⌈q⌉ : ℤ) : ℚ) := lt_of_lt_of_le h1 (Int.le_ceil q)
    have h3 : ⌊q⌋ < ⌈q⌉ := by exact_mod_cast h2
    omega
  unfold pyRoundInt
  split_ifs with ha hb hc
  · exact hfc
  · exact hstep (le_of_lt hb)
  · exact hfc
  · exact hstep (le_of_not_lt ha)

/-- Helper: `pyRound2` of a value in `[0, 100]` stays in `[0, 100]`. -/
theorem pyRound2_bounds (q : ℚ) (h0 : 0 ≤ q) (h1 : q ≤ 100) :
    0 ≤ pyRound2 q ∧ pyRound2 q ≤ 100 := by
  unfold pyRound2
  have hl := floor_le_pyRoundInt (q * 100)
  have hu := pyRoundInt_le_ceil (q * 100)
  have hf : (0:ℤ) ≤ ⌊q * 100⌋ := Int.floor_nonneg.mpr (by positivity)
  have hc : ⌈q * 100⌉ ≤ (10000:ℤ) := Int.ceil_le.mpr (by push_cast; linarith)
  have hzn : (0:ℤ) ≤ pyRoundInt (q * 100) := le_trans hf hl
  have hzu : pyRoundInt (q * 100) ≤ (10000:ℤ) := le_trans hu hc
  have hqn : (0:ℚ) ≤ (pyRoundInt (q * 100) : ℚ) := by exact_mod_cast hzn
  have hqu : ((pyRoundInt (q * 100) : ℤ) : ℚ) ≤ 10000 := by exact_mod_cast hzu
  constructor
  · positivity
  · rw [div_le_iff₀ (by norm_num : (0:ℚ) < 100)]
    linarith

/-- Helper: `pyRound2 0 = 0`. -/
theorem pyRound2_zero : pyRound2 0 = 0 := by
  unfold pyRound2 pyRoundInt
  norm_num

/-- C7: the summary's `pass_rate` equals `round(passed/total*100, 2)` when
`total > 0`, equals `0` when `total = 0`, and always lies in `[0, 100]` —
in particular the division is never taken with a zero denominator. -/
theorem summary_pass_rate_bounds (results : List PyDict) :
    ((calculate_summary results).total = 0
      → (calculate_summary results).pass_rate = 0)
    ∧ (0 < (calculate_summary results).total
      → (calculate_summary results).pass_rate
          = pyRound2 (((calculate_summary results).passed : ℚ)
              / ((calculate_summary results).total : ℚ) * 100))
    ∧ 0 ≤ (calculate_summary results).pass_rate
    ∧ (calculate_summary results).pass_rate ≤ 100 := by
  have htot : (calculate_summary results).total = results.length := rfl
  have hp : (calculate_summary results).passed ≤ results.length :=
    List.countP_le_length _
  refine ⟨?_, ?_, ?_⟩
  · intro h0
    have hlen : results.length = 0 := htot ▸ h0
    simp only [calculate_summary, hlen]
    norm_num [pyRound2_zero]
  · intro hpos
    have hlen : 0 < results.length := htot ▸ hpos
    simp only [calculate_summary, hlen, if_pos]
  · by_cases hz : results.length = 0
    · simp only [calculate_summary, hz]
      norm_num [pyRound2_zero]
    · have hlen : 0 < results.length := Nat.pos_of_ne_zero hz
      have hq0 : (0:ℚ) ≤ ((calculate_summary results).passed : ℚ)
          / (results.length : ℚ) * 100 := by positivity
      have hq1 : ((calculate_summary results).passed : ℚ)
          / (results.length : ℚ) * 100 ≤ 100 := by
        have hd : ((calculate_summary results).passed : ℚ)
            / (results.length : ℚ) ≤ 1 := by
          rw [div_le_one (by exact_mod_cast hlen)]
          exact_mod_cast hp
        linarith
      have hb := pyRound2_bounds _ hq0 hq1
      have hpr : (calculate_summary results).pass_rate
          = pyRound2 (((calculate_summary results).passed : ℚ)
              / (results.length : ℚ) * 100) := by
        simp only [calculate_summary, hlen, if_pos]
      rw [hpr]
      exact ⟨hb.1, hb.2⟩

/-- Witness for C7: the empty run has pass rate 0; a single passed result
exercises the positive branch and the bounds. -/
theorem summary_pass_rate_bounds_witness :
    (calculate_summary []).pass_rate = 0
    ∧ (calculate_summary [[("status", Val.str "passed")]]).pass_rate
        = pyRound2 (((calculate_summary [[("status", Val.str "passed")]]).passed : ℚ)
            / ((calculate_summary [[("status", Val.str "passed")]]).total : ℚ) * 100)
    ∧ 0 ≤ (calculate_summary [[("status", Val.str "passed")]]).pass_rate :=
  ⟨(summary_pass_rate_bounds []).1 rfl,
   (summary_pass_rate_bounds [[("status", Val.str "passed")]]).2.1 (by decide),
   (summary_pass_rate_bounds [[("status", Val.str "passed")]]).2.2.1⟩

/-- C1 counterexample: with every handle live and only `page.close`
raising, the context-close step is guarded by a live handle yet is never
attempted — the steps of the browser try-block are not independent —
although `cleanup` itself still raises nothing. -/
theorem cleanup_context_close_skipped_cex :
    stepPresent { hasPage := true, hasContext := true, hasBrowser := true,
                  hasPlaywright := true, hasMcp := true }
        TeardownStep.closeContext = true
    ∧ TeardownStep.closeContext ∉ (cleanup
        { hasPage := true, hasContext := true, hasBrowser := true,
          hasPlaywright := true, hasMcp := true }
        { pageClose := true, contextClose := false, browserClose := false,
          playwrightStop := false, mcpDisconnect := false }).1
    ∧ (cleanup
        { hasPage := true, hasContext := true, hasBrowser := true,
          hasPlaywright := true, hasMcp := true }
        { pageClose := true, contextClose := false, browserClose := false,
          playwrightStop := false, mcpDisconnect := false }).2 = false := by
  decide

/-- C1 (amended): `cleanup` never raises to its caller, and the
orchestration-client disconnect is attempted independently of any browser
failure; but the four browser steps form one guarded group — each is
attempted exactly when its handle is live and no earlier live browser step
raised. -/
theorem cleanup_teardown_characterization :
    ∀ (w : WorldHandles) (f : CleanupFailures),
      (cleanup w f).2 = false
      ∧ (TeardownStep.disconnectClient ∈ (cleanup w f).1 ↔ w.hasMcp = true)
      ∧ (TeardownStep.closePage ∈ (cleanup w f).1 ↔ w.hasPage = true)
      ∧ (TeardownStep.closeContext ∈ (cleanup w f).1
          ↔ (w.hasContext && !(w.hasPage && f.pageClose)) = true)
      ∧ (TeardownStep.closeBrowser ∈ (cleanup w f).1
          ↔ (w.hasBrowser && !(w.hasPage && f.pageClose)
              && !(w.hasContext && f.contextClose)) = true)
      ∧ (TeardownStep.stopDriver ∈ (cleanup w f).1
          ↔ (w.hasPlaywright && !(w.hasPage && f.pageClose)
              && !(w.hasContext && f.contextClose)
              && !(w.hasBrowser && f.browserClose)) = true) := by
  decide

/-- Helper: the state produced by `report_test_result` is always the input
state with the one new record appended, whatever the connectivity and the
remote oracle. -/
theorem report_test_result_state_eq (s : MCPState) (name status : String)
    (details : Option PyDict) (shot : Option String)
    (ts : String) (err : Option String) :
    (s.report_test_result name status details shot ts err).1
      = { s with test_results := s.test_results
          ++ [{ test_name := name, status := status, timestamp := ts,
                details := details.getD [], screenshot := shot }] } := by
  unfold MCPState.report_test_result
  split
  · rfl
  · cases err <;> rfl

/-- Helper: the reporting phase of the scenario-end hook never emits the
orchestration-stop or cleanup calls. -/
theorem scnReportPhase_events_small (w : HookWorld) (sc : Scenario) (e : ScnEnv) :
    ScnEvent.cleanupCall ∉ (scnReportPhase w sc e).2
    ∧ ScnEvent.stopCall ∉ (scnReportPhase w sc e).2 := by
  unfold scnReportPhase
  repeat' split
  all_goals simp

/-- C2: on every execution path of `after_scenario_hook` — whatever the
scenario status, page/client liveness, screenshot failure, or
remote-reporting/stop failures (which the client turns into return values,
never exceptions) — the trace reaches the `cleanup` call, immediately
preceded by `stop_test_orchestration` whenever an MCP client exists. -/
theorem after_scenario_release_after_stop (w : HookWorld) (sc : Scenario)
    (e : ScnEnv) :
    ∃ pre post, (after_scenario_hook w sc e).2
        = pre ++ (if w.mcp.isSome then [ScnEvent.stopCall, ScnEvent.cleanupCall]
                  else [ScnEvent.cleanupCall]) ++ post
      ∧ ScnEvent.cleanupCall ∉ pre := by
  refine ⟨(scnReportPhase w sc e).2,
          (if w.hasScenarioShots then [ScnEvent.mergeEvidence] else []),
          ?_, (scnReportPhase_events_small w sc e).1⟩
  unfold after_scenario_hook
  by_cases h : w.mcp.isSome <;> simp [h]

/-- C3 counterexample: a scenario that ends `failed` with a live page and
a live orchestration client, where the screenshot call raises: the capture
is attempted, but no `failed` TestResult is ever appended to the client's
result sequence (the report is skipped with the rest of the try block). -/
theorem after_scenario_failed_no_report_cex :
    ({ name := "basic search", status := "failed",
       exceptionAttr := some "boom", durationAttr := none } : Scenario).status
      = "failed"
    ∧ ScnEvent.screenshotAttempt ∈ (after_scenario_hook
        { hasPage := true, mcp := some MCPState.init, hasScenarioShots := false }
        { name := "basic search", status := "failed",
          exceptionAttr := some "boom", durationAttr := none }
        { screenshotFails := true, reportErr := none, stopErr := none,
          ts := "t" }).2
    ∧ Option.map MCPState.get_test_results (after_scenario_hook
        { hasPage := true, mcp := some MCPState.init, hasScenarioShots := false }
        { name := "basic search", status := "failed",
          exceptionAttr := some "boom", durationAttr := none }
        { screenshotFails := true, reportErr := none, stopErr := none,
          ts := "t" }).1.mcp = some [] := by
  decide

/-- C3 (amended): for every scenario ending `failed` while the page handle
is live, a failure-screenshot capture is attempted; and when the capture
does not raise and an orchestration client exists, a TestResult with
status `failed`, the scenario's error message under `details.error`, and
the failure-screenshot path is appended to the client's result sequence. -/
theorem after_scenario_failed_report (w : HookWorld) (sc : Scenario)
    (e : ScnEnv) (hst : sc.status = "failed") (hpg : w.hasPage = true) :
    ScnEvent.screenshotAttempt ∈ (after_scenario_hook w sc e).2
    ∧ (e.screenshotFails = false → ∀ m, w.mcp = some m →
        (after_scenario_hook w sc e).1.mcp
          = some { m with test_results := m.test_results
              ++ [{ test_name := sc.name, status := "failed", timestamp := e.ts,
                    details := [("error",
                      Val.str (sc.exceptionAttr.getD "Unknown error"))],
                    screenshot := some (failureShotPath sc) }] }) := by
  have hcond : (sc.status == "failed" && w.hasPage) = true := by
    simp [hst, hpg]
  constructor
  · unfold after_scenario_hook scnReportPhase
    rw [hcond]
    by_cases hs : e.screenshotFails = true
    · simp [hs]
    · rw [Bool.not_eq_true] at hs
      cases hm : w.mcp <;> simp [hs, hm]
  · intro hsf m hm
    unfold after_scenario_hook scnReportPhase
    rw [hcond]
    simp only [hsf, hm, if_true, Bool.false_eq_true, if_false]
    rw [report_test_result_state_eq]
    simp

/-- Witness for C3 (amended): a concrete failed scenario with a live page,
successful capture and a fresh client yields exactly the failed record. -/
theorem after_scenario_failed_report_witness :
    (after_scenario_hook
        { hasPage := true, mcp := some MCPState.init, hasScenarioShots := false }
        { name := "basic search", status := "failed", exceptionAttr := some "boom", durationAttr := none }
        { screenshotFails := false, reportErr := none, stopErr := none, ts := "t" }).1.mcp
      = some { MCPState.init with
          test_results := MCPState.init.test_results
            ++ [{ test_name := "basic search",
                  status := "failed", timestamp := "t",
                  details := [("error", Val.str "boom")],
                  screenshot := some (failureShotPath { name := "basic search", status := "failed", exceptionAttr := some "boom", durationAttr := none }) }] } :=
  (after_scenario_failed_report _ _ _ rfl rfl).2 rfl MCPState.init rfl

/-- C8: the step-end hook never lets an error escape, and appends no
evidence record when the page handle is absent or the screenshot call
raises — a record exists only for a successful capture. -/
theorem after_step_record_only_on_success (w : StepWorld) (st : StepCtx)
    (e : StepEnv) :
    (after_step_hook w st e).2 = false
    ∧ (w.hasPage = false → (after_step_hook w st e).1 = [])
    ∧ (e.screenshotFails = true → (after_step_hook w st e).1 = []) := by
  refine ⟨?_, fun hpg => ?_, fun hsf => ?_⟩
  · unfold after_step_hook
    repeat' split
    all_goals rfl
  · unfold after_step_hook
    simp [hpg]
  · unfold after_step_hook
    simp only [hsf]
    repeat' split
    all_goals simp_all

/-- Witness for C8: no record with a dead page; no record when the
screenshot raises; never an escaping error. -/
theorem after_step_record_only_on_success_witness :
    (after_step_hook { hasWorld := true, hasPage := true } { name := "I search", keyword := "When", scenarioName := some "basic search", statusAttr := some "passed" } { makedirsFails := false, screenshotFails := true, ts := "t" }).2 = false
    ∧ (after_step_hook { hasWorld := true, hasPage := false } { name := "I search", keyword := "When", scenarioName := some "basic search", statusAttr := some "passed" } { makedirsFails := false, screenshotFails := false, ts := "t" }).1 = []
    ∧ (after_step_hook { hasWorld := true, hasPage := true } { name := "I search", keyword := "When", scenarioName := some "basic search", statusAttr := some "passed" } { makedirsFails := false, screenshotFails := true, ts := "t" }).1 = [] :=
  ⟨(after_step_record_only_on_success
      { hasWorld := true, hasPage := true }
      { name := "I search", keyword := "When", scenarioName := some "basic search", statusAttr := some "passed" }
      { makedirsFails := false, screenshotFails := true, ts := "t" }).1,
   (after_step_record_only_on_success
      { hasWorld := true, hasPage := false }
      { name := "I search", keyword := "When", scenarioName := some "basic search", statusAttr := some "passed" }
      { makedirsFails := false, screenshotFails := false, ts := "t" }).2.1 rfl,
   (after_step_record_only_on_success
      { hasWorld := true, hasPage := true }
      { name := "I search", keyword := "When", scenarioName := some "basic search", statusAttr := some "passed" }
      { makedirsFails := false, screenshotFails := true, ts := "t" }).2.2 rfl⟩
